import Mathlib

/-!
Shallow embedding of the rakawarana-backend rescue-post service
(`app/services/posts_service.py`, `app/schemas/rescue_posts.py`,
`app/repositories/posts_repository.py`, `app/utils/auth.py`) together with
proofs about the embedded operations.

Database rows are modelled as Lean structures, Python `None` as `Option`,
Python exceptions as `Except` results, and the Supabase table as a
`List` of rows.
-/

namespace Rakawarana

/-- Python's `str.lower()` restricted to the ASCII range, applied
character by character (the water-level tags are ASCII). -/
def pyLower (s : String) : String := ⟨s.data.map Char.toLower⟩

/-- Python's `str.strip()` restricted to ASCII whitespace: drop leading
and trailing whitespace characters. -/
def pyStrip (s : String) : String :=
  ⟨((s.data.dropWhile Char.isWhitespace).reverse.dropWhile Char.isWhitespace).reverse⟩

/-- Python's `str.startswith`, character by character. -/
def pyStartsWith (s pre : String) : Bool :=
  pre.data.isPrefixOf s.data

/-- A `rescue_posts` row as consumed by `_priority_score` and
`fetch_rescue_posts_filtered`.  `created_at_epoch` holds the epoch
seconds of the row's `created_at` ISO timestamp when that string parses,
and `none` when it does not (the `datetime.fromisoformat` call of
`_priority_score` is abstracted to its result). -/
structure Post where
  id : String := ""
  district : Option String := none
  emergency_type : Option String := none
  water_level : Option String := none
  is_medical_needed : Bool := false
  need_foods : Bool := false
  need_water : Bool := false
  need_transport : Bool := false
  need_medic : Bool := false
  need_power : Bool := false
  need_clothes : Bool := false
  is_verified : Bool := false
  number_of_peoples_to_rescue : Option Int := none
  safe_hours : Option Int := none
  created_at_epoch : Option Int := none
  deriving Repr, DecidableEq

/-- The `water_map` dictionary lookup of `_priority_score`
(`water_map.get(water_level, 0)`). -/
def water_map (tag : String) : Int :=
  if tag = "head" then 9
  else if tag = "neck" then 8
  else if tag = "chest" then 7
  else if tag = "shoulder" then 6
  else if tag = "waist" then 5
  else if tag = "knee" then 3
  else if tag = "ankle" then 1
  else 0

/-- The score accumulated by `_priority_score` (`posts_service.py`).
All weights are integers, so the Python float arithmetic is exact and
modelled on `Int`. -/
def post_score (post : Post) : Int :=
  let people : Int := post.number_of_peoples_to_rescue.getD 0
  let s1 : Int := min people 50 * 2
  let s2 : Int := s1 + water_map (pyLower (post.water_level.getD ""))
  let s3 : Int := s2 + (if post.is_medical_needed then 10 else 0)
  let s4 : Int := s3 + (if post.need_medic then 6 else 0)
  let s5 : Int := s4 + (if post.need_foods then 2 else 0)
      + (if post.need_water then 2 else 0)
      + (if post.need_transport then 2 else 0)
      + (if post.need_power then 2 else 0)
      + (if post.need_clothes then 2 else 0)
  let s6 : Int := s5 +
    (match post.safe_hours with
      | some h => if h ≤ 1 then 6 else if h ≤ 4 then 4 else if h ≤ 12 then 2 else 0
      | none => 0)
  s6 + (if post.is_verified then 1 else 0)

/-- The tie-breaker of `_priority_score`: negated epoch seconds of a
parseable `created_at`, and `0.0` when parsing raises. -/
def tie_breaker (post : Post) : Int :=
  match post.created_at_epoch with
  | some t => -t
  | none => 0

/-- `_priority_score(post)`: the `(score, -timestamp)` pair. -/
def priority_score (post : Post) : Int × Int :=
  (post_score post, tie_breaker post)

/-! Spec-side restatement of the scorer, written from the claim's words,
to be compared with `post_score` (refinement). -/

/-- The water-level table as the claim states it. -/
def waterTableSpec : List (String × Int) :=
  [("head", 9), ("neck", 8), ("chest", 7), ("shoulder", 6),
   ("waist", 5), ("knee", 3), ("ankle", 1)]

/-- Spec wording: score is the sum of the listed terms. -/
def score_spec (p : Post) : Int :=
  min (p.number_of_peoples_to_rescue.getD 0) 50 * 2
  + (waterTableSpec.lookup (pyLower (p.water_level.getD ""))).getD 0
  + (if p.is_medical_needed then 10 else 0)
  + (if p.need_medic then 6 else 0)
  + 2 * (([p.need_foods, p.need_water, p.need_transport,
           p.need_power, p.need_clothes].countP id : Nat) : Int)
  + (match p.safe_hours with
      | some h => if h ≤ 1 then 6 else if h ≤ 4 then 4 else if h ≤ 12 then 2 else 0
      | none => 0)
  + (if p.is_verified then 1 else 0)

/-- The claim's example post P1: medical=true, water "ankle", 10 people. -/
def examplePostP1 : Post :=
  { id := "p1", is_medical_needed := true, water_level := some "ankle",
    number_of_peoples_to_rescue := some 10 }

/-- The claim's example post P2: medical=false, water "head", 2 people. -/
def examplePostP2 : Post :=
  { id := "p2", water_level := some "head",
    number_of_peoples_to_rescue := some 2 }

lemma water_map_eq_lookup (s : String) :
    water_map s = (waterTableSpec.lookup s).getD 0 := by
  unfold water_map waterTableSpec
  simp only [List.lookup, beq_iff_eq]
  repeat' split <;> try simp_all

lemma needs_sum_eq (a b c d e : Bool) :
    (if a then (2 : Int) else 0) + (if b then 2 else 0) + (if c then 2 else 0)
      + (if d then 2 else 0) + (if e then 2 else 0)
    = 2 * (([a, b, c, d, e].countP id : Nat) : Int) := by
  cases a <;> cases b <;> cases c <;> cases d <;> cases e <;> decide

/-- C1: the criticality score of a post is the sum of the people term
(capped at 50, missing treated as 0, times 2), the water-level table
term on the lower-cased tag, 10 for medical need, 6 for medic need,
2 per other true need flag, the tiered safe-hours bonus (only for
integer safe-hours), and 1 for verification; the two example posts
score 31 and 13. -/
theorem c1_priority_score_spec :
    (∀ post : Post, (priority_score post).1 = score_spec post)
    ∧ (priority_score examplePostP1).1 = 31
    ∧ (priority_score examplePostP2).1 = 13 := by
  refine ⟨fun post => ?_, by decide, by decide⟩
  unfold priority_score post_score score_spec
  rw [← water_map_eq_lookup, ← needs_sum_eq]
  ring

/-! ### Top-critical listing (`list_top_critical_posts`) -/

/-- Lexicographic order on the `(score, tie_breaker)` pairs, as Python
compares tuples. -/
def keyLe (a b : Int × Int) : Bool :=
  decide (a.1 < b.1) || (decide (a.1 = b.1) && decide (a.2 ≤ b.2))

/-- `sorted(posts, key=_priority_score, reverse=True)[:limit]`:
a stable sort, descending on the key pair.  Python's stable descending
sort keeps the original order of equal keys, which is exactly
`mergeSort` with the reversed relation. -/
def list_top_critical_posts (posts : List Post) (limit : Nat := 3) : List Post :=
  (posts.mergeSort (fun a b => keyLe (priority_score b) (priority_score a))).take limit

lemma keyLe_trans (a b c : Int × Int) :
    keyLe a b = true → keyLe b c = true → keyLe a c = true := by
  simp only [keyLe, Bool.or_eq_true, Bool.and_eq_true, decide_eq_true_eq]
  omega

lemma keyLe_total (a b : Int × Int) : (keyLe a b || keyLe b a) = true := by
  simp only [keyLe, Bool.or_eq_true, Bool.and_eq_true, decide_eq_true_eq]
  omega

/-- C2: the top-critical operation returns the first `limit` elements of a
descending (score, tiebreak)-sorted permutation of the input, the default
limit is 3, an unparseable timestamp gives tiebreak exactly 0, and among
equal scores the post with the earlier parseable timestamp is strictly
higher in the order. -/
theorem c2_top_critical (posts : List Post) (limit : Nat) :
    (∃ sorted : List Post,
        list_top_critical_posts posts limit = sorted.take limit
        ∧ sorted.Perm posts
        ∧ sorted.Pairwise
            (fun a b => keyLe (priority_score b) (priority_score a) = true))
    ∧ list_top_critical_posts posts = list_top_critical_posts posts 3
    ∧ (∀ p : Post, p.created_at_epoch = none → tie_breaker p = 0)
    ∧ (∀ p q : Post, ∀ tp tq : Int,
        p.created_at_epoch = some tp → q.created_at_epoch = some tq →
        post_score p = post_score q → tp < tq →
        keyLe (priority_score q) (priority_score p) = true
        ∧ keyLe (priority_score p) (priority_score q) = false) := by
  refine ⟨⟨posts.mergeSort (fun a b => keyLe (priority_score b) (priority_score a)),
      rfl, List.mergeSort_perm posts _, ?_⟩, rfl, fun p h => by simp [tie_breaker, h], ?_⟩
  · exact @List.sorted_mergeSort Post
      (fun a b => keyLe (priority_score b) (priority_score a))
      (fun a b c hab hbc =>
        keyLe_trans (priority_score c) (priority_score b) (priority_score a) hbc hab)
      (fun a b => keyLe_total (priority_score b) (priority_score a)) posts
  · intro p q tp tq hp hq hscore ht
    constructor <;>
      simp [keyLe, priority_score, tie_breaker, hp, hq, hscore] <;> omega

/-- Witness for C2: applies the theorem at concrete posts with equal
scores and epochs 5 < 9, and at a post with no parseable timestamp. -/
theorem c2_top_critical_witness :
    tie_breaker { id := "w0" } = 0
    ∧ keyLe (priority_score { id := "w2", created_at_epoch := some 9 })
        (priority_score { id := "w1", created_at_epoch := some 5 }) = true :=
  ⟨(c2_top_critical [] 0).2.2.1 _ rfl,
   ((c2_top_critical [] 0).2.2.2
      { id := "w1", created_at_epoch := some 5 }
      { id := "w2", created_at_epoch := some 9 }
      5 9 rfl rfl (by decide) (by decide)).1⟩

/-! ### Admin authorization gate (`app/utils/auth.py`) -/

/-- An `AppError(message, status_code, details)`; the `details` payload is
not needed for the claims about the gate and is omitted. -/
structure AppError where
  message : String
  status_code : Nat
  deriving Repr, DecidableEq

/-- Python string truthiness on an optional string: `None` and `""` are
falsy. -/
def pyFalsyStr : Option String → Bool
  | none => true
  | some s => decide (s = "")

/-- `require_admin_token` (`app/utils/auth.py`): checks the cached
settings' `admin_token` against the `x-api-token` header. -/
def require_admin_token (admin_token x_api_token : Option String) :
    Except AppError Unit :=
  if pyFalsyStr admin_token then
    .error ⟨"Admin token not configured", 500⟩
  else if pyFalsyStr x_api_token || decide (x_api_token ≠ admin_token) then
    .error ⟨"Unauthorized", 401⟩
  else
    .ok ()

/-- C7: with an unconfigured (absent or empty) secret the gate fails with
status 500 regardless of the token; with a configured secret, access is
granted exactly when the token equals the secret, and any other token
(missing included) yields status 401. -/
theorem c7_admin_gate (secret token : Option String) :
    (pyFalsyStr secret = true →
      require_admin_token secret token = .error ⟨"Admin token not configured", 500⟩)
    ∧ (pyFalsyStr secret = false →
        (require_admin_token secret token = .ok () ↔ token = secret)
        ∧ (token ≠ secret →
            require_admin_token secret token = .error ⟨"Unauthorized", 401⟩)) := by
  refine ⟨fun h => by simp [require_admin_token, h], fun h => ⟨?_, fun hne => ?_⟩⟩
  · constructor
    · intro hok
      by_contra hne
      simp [require_admin_token, h, hne] at hok
    · intro he
      subst he
      simp [require_admin_token, h]
  · simp [require_admin_token, h, hne]

/-- Witness for C7: the gate at a missing secret, at a matching token,
and at a missing token. -/
theorem c7_admin_gate_witness :
    require_admin_token none (some "anything")
        = .error ⟨"Admin token not configured", 500⟩
    ∧ require_admin_token (some "secret") (some "secret") = .ok ()
    ∧ require_admin_token (some "secret") none = .error ⟨"Unauthorized", 401⟩ :=
  ⟨(c7_admin_gate none (some "anything")).1 rfl,
   ((c7_admin_gate (some "secret") (some "secret")).2 rfl).1.mpr rfl,
   ((c7_admin_gate (some "secret") none).2 rfl).2 (by decide)⟩

/-! ### Repository verify / delete (`app/repositories/posts_repository.py`)

The Supabase table is modelled as a `List Post`; `update(...).eq("id", id)`
returns the updated rows as `response.data`, `delete().eq("id", id)` returns
the deleted rows. -/

/-- `verify_rescue_post`: set `is_verified` on every row matching the id;
404 when `response.data` is empty, else the first updated row (and the new
table state). -/
def verify_rescue_post (table : List Post) (post_id : String) :
    Except AppError (Post × List Post) :=
  let newTable := table.map
    (fun p => if p.id = post_id then { p with is_verified := true } else p)
  match newTable.filter (fun p => decide (p.id = post_id)) with
  | [] => .error ⟨"Rescue post not found", 404⟩
  | r :: _ => .ok (r, newTable)

/-- `delete_rescue_post`: remove every row matching the id; 404 when no
row was deleted, else the remaining table. -/
def delete_rescue_post (table : List Post) (post_id : String) :
    Except AppError (List Post) :=
  if (table.filter (fun p => decide (p.id = post_id))).isEmpty then
    .error ⟨"Rescue post not found", 404⟩
  else
    .ok (table.filter (fun p => decide (p.id ≠ post_id)))

/-- C9: verify and delete of an id matching no row both fail with status
404; verify of an existing id returns a row that is the first matching
row with `is_verified` set to true. -/
theorem c9_verify_delete_not_found (table : List Post) (post_id : String) :
    ((∀ p ∈ table, p.id ≠ post_id) →
      verify_rescue_post table post_id = .error ⟨"Rescue post not found", 404⟩
      ∧ delete_rescue_post table post_id = .error ⟨"Rescue post not found", 404⟩)
    ∧ (∀ q ∈ table, q.id = post_id →
        ∃ r newTable, verify_rescue_post table post_id = .ok (r, newTable)
          ∧ r.is_verified = true ∧ r.id = post_id
          ∧ ∃ q₀ ∈ table, q₀.id = post_id ∧ r = { q₀ with is_verified := true }) := by
  constructor
  · intro hno
    have hfil : (table.map
        (fun p => if p.id = post_id then { p with is_verified := true } else p)).filter
        (fun p => decide (p.id = post_id)) = [] := by
      rw [List.filter_eq_nil]
      intro a ha
      obtain ⟨q, hq, rfl⟩ := List.mem_map.mp ha
      by_cases h : q.id = post_id
      · exact absurd h (hno q hq)
      · simp [h]
    have hfil2 : (table.filter (fun p => decide (p.id = post_id))).isEmpty = true := by
      rw [List.isEmpty_iff, List.filter_eq_nil]
      intro a ha
      simpa using hno a ha
    exact ⟨by simp [verify_rescue_post, hfil], by simp [delete_rescue_post, hfil2]⟩
  · intro q hq hqid
    set newTable := table.map
      (fun p => if p.id = post_id then { p with is_verified := true } else p) with hnew
    have hmem : ({ q with is_verified := true } : Post) ∈
        newTable.filter (fun p => decide (p.id = post_id)) := by
      rw [List.mem_filter]
      refine ⟨?_, by simpa using hqid⟩
      rw [hnew]
      have := List.mem_map_of_mem
        (fun p => if p.id = post_id then { p with is_verified := true } else p) hq
      simpa [hqid] using this
    cases hl : newTable.filter (fun p => decide (p.id = post_id)) with
    | nil => rw [hl] at hmem; exact absurd hmem (List.not_mem_nil _)
    | cons r rest =>
      refine ⟨r, newTable, by simp [verify_rescue_post, ← hnew, hl], ?_, ?_, ?_⟩
      all_goals
        have hr : r ∈ newTable.filter (fun p => decide (p.id = post_id)) := by
          rw [hl]; exact List.mem_cons_self r rest
        rw [List.mem_filter] at hr
        obtain ⟨hrmem, hrid⟩ := hr
        rw [hnew] at hrmem
        obtain ⟨q₀, hq₀, hq₀eq⟩ := List.mem_map.mp hrmem
        simp only [decide_eq_true_eq] at hrid
      · by_cases h : q₀.id = post_id
        · simp [h] at hq₀eq; rw [← hq₀eq]
        · simp [h] at hq₀eq; rw [← hq₀eq] at hrid; exact absurd hrid h
      · exact hrid
      · by_cases h : q₀.id = post_id
        · exact ⟨q₀, hq₀, h, by simp [h] at hq₀eq; rw [← hq₀eq, h]⟩
        · simp [h] at hq₀eq; rw [← hq₀eq] at hrid; exact absurd hrid h

/-- Witness for C9: a one-row table, a missing id and the present id. -/
theorem c9_verify_delete_not_found_witness :
    (verify_rescue_post [{ id := "a" }] "b" = .error ⟨"Rescue post not found", 404⟩
      ∧ delete_rescue_post [{ id := "a" }] "b" = .error ⟨"Rescue post not found", 404⟩)
    ∧ ∃ r newTable, verify_rescue_post [{ id := "a" }] "a" = .ok (r, newTable)
        ∧ r.is_verified = true ∧ r.id = "a"
        ∧ ∃ q₀ ∈ [({ id := "a" } : Post)], q₀.id = "a"
            ∧ r = { q₀ with is_verified := true } :=
  ⟨(c9_verify_delete_not_found [{ id := "a" }] "b").1 (by decide),
   (c9_verify_delete_not_found [{ id := "a" }] "a").2
     { id := "a" } (List.mem_cons_self _ _) rfl⟩

/-! ### Combinable filter (`list_rescue_posts_filtered` /
`fetch_rescue_posts_filtered`) -/

/-- The thirteen optional filters of `list_rescue_posts_filtered`. -/
structure PostFilters where
  district : Option String := none
  emergency_type : Option String := none
  water_level : Option String := none
  is_medical_needed : Option Bool := none
  need_foods : Option Bool := none
  need_water : Option Bool := none
  need_transport : Option Bool := none
  need_medic : Option Bool := none
  need_power : Option Bool := none
  need_clothes : Option Bool := none
  is_verified : Option Bool := none
  min_people : Option Int := none
  max_safe_hours : Option Int := none
  deriving Repr, DecidableEq

/-- A skipped (`None`) filter, or `.eq(column, v)` on a nullable text
column: a SQL `NULL` column never equals `v`. -/
def eqClauseStr (fv col : Option String) : Bool :=
  match fv with
  | none => true
  | some v => decide (col = some v)

/-- A skipped filter or `.eq(column, v)` on a boolean column. -/
def eqClauseBool (fv : Option Bool) (col : Bool) : Bool :=
  match fv with
  | none => true
  | some v => decide (col = v)

/-- A skipped filter or `.gte(column, v)` on a nullable integer column. -/
def gteClause (fv col : Option Int) : Bool :=
  match fv, col with
  | none, _ => true
  | some _, none => false
  | some v, some x => decide (v ≤ x)

/-- A skipped filter or `.lte(column, v)` on a nullable integer column. -/
def lteClause (fv col : Option Int) : Bool :=
  match fv, col with
  | none, _ => true
  | some _, none => false
  | some v, some x => decide (x ≤ v)

/-- The conjunction of query clauses built by
`fetch_rescue_posts_filtered` for one row. -/
def matchesFilters (f : PostFilters) (p : Post) : Bool :=
  eqClauseStr f.district p.district
  && eqClauseStr f.emergency_type p.emergency_type
  && eqClauseStr f.water_level p.water_level
  && eqClauseBool f.is_medical_needed p.is_medical_needed
  && eqClauseBool f.need_foods p.need_foods
  && eqClauseBool f.need_water p.need_water
  && eqClauseBool f.need_transport p.need_transport
  && eqClauseBool f.need_medic p.need_medic
  && eqClauseBool f.need_power p.need_power
  && eqClauseBool f.need_clothes p.need_clothes
  && eqClauseBool f.is_verified p.is_verified
  && gteClause f.min_people p.number_of_peoples_to_rescue
  && lteClause f.max_safe_hours p.safe_hours

/-- `fetch_rescue_posts_filtered`: the rows satisfying every supplied
clause (the query also orders by `created_at`, which does not change the
returned set; the input list stands for the table). -/
def fetch_rescue_posts_filtered (table : List Post) (f : PostFilters) : List Post :=
  table.filter (matchesFilters f)

/-- `filters` dict of `list_rescue_posts_filtered` is all-`None`. -/
def allNoneFilters (f : PostFilters) : Bool :=
  f.district.isNone && f.emergency_type.isNone && f.water_level.isNone
  && f.is_medical_needed.isNone && f.need_foods.isNone && f.need_water.isNone
  && f.need_transport.isNone && f.need_medic.isNone && f.need_power.isNone
  && f.need_clothes.isNone && f.is_verified.isNone && f.min_people.isNone
  && f.max_safe_hours.isNone

/-- `list_rescue_posts_filtered` (service layer): reject an empty filter
set before querying, else delegate to the repository fetch. -/
def list_rescue_posts_filtered (table : List Post) (f : PostFilters) :
    Except AppError (List Post) :=
  if allNoneFilters f then
    .error ⟨"At least one filter must be provided", 400⟩
  else
    .ok (fetch_rescue_posts_filtered table f)

lemma eqClauseStr_iff (fv col : Option String) :
    eqClauseStr fv col = true ↔ ∀ v, fv = some v → col = some v := by
  cases fv <;> simp [eqClauseStr]

lemma eqClauseBool_iff (fv : Option Bool) (col : Bool) :
    eqClauseBool fv col = true ↔ ∀ v, fv = some v → col = v := by
  cases fv <;> simp [eqClauseBool]

lemma gteClause_iff (fv col : Option Int) :
    gteClause fv col = true ↔ ∀ v, fv = some v → ∃ x, col = some x ∧ v ≤ x := by
  cases fv <;> cases col <;> simp [gteClause]

lemma lteClause_iff (fv col : Option Int) :
    lteClause fv col = true ↔ ∀ v, fv = some v → ∃ x, col = some x ∧ x ≤ v := by
  cases fv <;> cases col <;> simp [lteClause]

/-- C8: an all-absent filter set is rejected with a caller-input error
independently of the table; otherwise the result is exactly the posts
satisfying the conjunction of the supplied predicates, where the supplied
exact-match, at-least and at-most predicates have the stated meaning. -/
theorem c8_filter_combination (table : List Post) (f : PostFilters) :
    (allNoneFilters f = true →
      list_rescue_posts_filtered table f
        = .error ⟨"At least one filter must be provided", 400⟩)
    ∧ (allNoneFilters f = false →
        ∃ l, list_rescue_posts_filtered table f = .ok l
          ∧ ∀ p : Post, p ∈ l ↔ p ∈ table ∧ matchesFilters f p = true)
    ∧ (∀ p : Post, matchesFilters f p = true ↔
        ((∀ v, f.district = some v → p.district = some v)
         ∧ (∀ v, f.emergency_type = some v → p.emergency_type = some v)
         ∧ (∀ v, f.water_level = some v → p.water_level = some v)
         ∧ (∀ v, f.is_medical_needed = some v → p.is_medical_needed = v)
         ∧ (∀ v, f.need_foods = some v → p.need_foods = v)
         ∧ (∀ v, f.need_water = some v → p.need_water = v)
         ∧ (∀ v, f.need_transport = some v → p.need_transport = v)
         ∧ (∀ v, f.need_medic = some v → p.need_medic = v)
         ∧ (∀ v, f.need_power = some v → p.need_power = v)
         ∧ (∀ v, f.need_clothes = some v → p.need_clothes = v)
         ∧ (∀ v, f.is_verified = some v → p.is_verified = v)
         ∧ (∀ v, f.min_people = some v →
             ∃ x, p.number_of_peoples_to_rescue = some x ∧ v ≤ x)
         ∧ (∀ v, f.max_safe_hours = some v →
             ∃ x, p.safe_hours = some x ∧ x ≤ v))) := by
  refine ⟨fun h => by simp [list_rescue_posts_filtered, h], fun h => ?_, fun p => ?_⟩
  · exact ⟨fetch_rescue_posts_filtered table f,
      by simp [list_rescue_posts_filtered, h],
      fun p => by simp [fetch_rescue_posts_filtered, List.mem_filter]⟩
  · simp only [matchesFilters, Bool.and_eq_true, eqClauseStr_iff, eqClauseBool_iff,
      gteClause_iff, lteClause_iff]
    tauto

/-- Witness for C8: the empty filter set is rejected; a district plus
min-people filter set is accepted and characterised. -/
theorem c8_filter_combination_witness :
    list_rescue_posts_filtered [{ id := "a", district := some "X" }] {}
        = .error ⟨"At least one filter must be provided", 400⟩
    ∧ ∃ l, list_rescue_posts_filtered
          [{ id := "a", district := some "X",
             number_of_peoples_to_rescue := some 7 }]
          { district := some "X", min_people := some 5 } = .ok l
        ∧ ∀ p : Post, p ∈ l ↔
            p ∈ [{ id := "a", district := some "X",
                   number_of_peoples_to_rescue := some 7 }]
            ∧ matchesFilters { district := some "X", min_people := some 5 } p = true :=
  ⟨(c8_filter_combination [{ id := "a", district := some "X" }] {}).1 (by decide),
   (c8_filter_combination
      [{ id := "a", district := some "X", number_of_peoples_to_rescue := some 7 }]
      { district := some "X", min_people := some 5 }).2.1 (by decide)⟩

/-! ### Submission validator (`app/schemas/rescue_posts.py`)

`RescuePostCreate` is a pydantic model: each field is checked against its
`Field` length/range constraints and then against its `field_validator`;
pydantic collects the per-field failures of all fields and
`validate_with_app_error` re-raises them as one structured error.
`InvalidDataException` itself lives in `app/utils/exception_handlers.py`,
which is not among the provided sources; following the spec, it is
modelled as a caller-input error carrying the message and the structured
details, and the validators' per-field failures are modelled as pydantic
validation errors that are collected across fields. -/

/-- One formatted `{field, message}` pair of `_format_pydantic_errors`. -/
structure FieldError where
  field : String
  message : String
  deriving Repr, DecidableEq

/-- Modelled from the spec: `InvalidDataException` (from the missing
`app/utils/exception_handlers.py`) is a caller-input error with a message
and structured details; here the details carry the formatted field
errors. -/
structure InvalidData where
  message : String
  errors : List FieldError
  deriving Repr, DecidableEq

/-- `field_name.replace('_', ' ').title()` on snake_case names. -/
def pyTitleWord (w : String) : String :=
  match w.data with
  | [] => ""
  | c :: cs => ⟨Char.toUpper c :: cs.map Char.toLower⟩

/-- Humanized field name used in the validator messages. -/
def humanizeField (name : String) : String :=
  String.intercalate " " ((name.splitOn "_").map pyTitleWord)

/-- `_validate_phone`: strip non-digits (ASCII digits; the inputs are
form strings), then require 7–15 digits. -/
def _validate_phone (number : String) (field_name : String) :
    Except FieldError String :=
  let digits := number.data.filter Char.isDigit
  if digits.length < 7 ∨ digits.length > 15 then
    .error ⟨field_name, humanizeField field_name ++ " must have 7-15 digits"⟩
  else
    .ok ⟨digits⟩

/-- `_validate_url`: strip, require non-empty and an http/https scheme. -/
def _validate_url (url : String) (field_name : String) :
    Except FieldError String :=
  let stripped := pyStrip url
  if stripped = "" then
    .error ⟨field_name, humanizeField field_name ++ " is required"⟩
  else if !(pyStartsWith stripped "http://" || pyStartsWith stripped "https://") then
    .error ⟨field_name,
      humanizeField field_name ++ " must start with http:// or https://"⟩
  else
    .ok stripped

/-- The loop of `_validate_urls`: skip blank entries, fail at the first
entry without an http/https scheme, keep the stripped rest. -/
def cleanUrls : List String → Except FieldError (List String)
  | [] => .ok []
  | url :: rest =>
    let stripped := pyStrip url
    if stripped = "" then
      cleanUrls rest
    else if pyStartsWith stripped "http://" || pyStartsWith stripped "https://" then
      match cleanUrls rest with
      | .error e => .error e
      | .ok tail => .ok (stripped :: tail)
    else
      .error ⟨"image_urls", "Image URLs must start with http:// or https://"⟩

/-- `_validate_urls`: the cleaned list must be non-empty. -/
def _validate_urls (urls : List String) : Except FieldError (List String) :=
  match cleanUrls urls with
  | .error e => .error e
  | .ok cleaned =>
    if cleaned.isEmpty then
      .error ⟨"image_urls",
        "At least one image URL is required when images are provided"⟩
    else
      .ok cleaned

/-- A required string field with `min_length`/`max_length` constraints
(message wording from `_friendly_message`). -/
def vRequiredStr (field : String) (minLen maxLen : Nat) (v : Option String) :
    Except FieldError String :=
  match v with
  | none => .error ⟨field, "Field required"⟩
  | some s =>
    if s.length < minLen then
      .error ⟨field, "Must be at least " ++ toString minLen ++ " characters long"⟩
    else if s.length > maxLen then
      .error ⟨field, "Must be at most " ++ toString maxLen ++ " characters long"⟩
    else
      .ok s

/-- An optional string field with `min_length`/`max_length` constraints. -/
def vOptionalStr (field : String) (minLen maxLen : Nat) (v : Option String) :
    Except FieldError (Option String) :=
  match v with
  | none => .ok none
  | some s => (vRequiredStr field minLen maxLen (some s)).map some

/-- An optional integer field with `ge`/`le` constraints. -/
def vOptionalInt (field : String) (lo hi : Int) (v : Option Int) :
    Except FieldError (Option Int) :=
  match v with
  | none => .ok none
  | some n =>
    if n < lo then
      .error ⟨field, "Must be greater than or equal to " ++ toString lo⟩
    else if n > hi then
      .error ⟨field, "Must be less than or equal to " ++ toString hi⟩
    else
      .ok (some n)

/-- `phone_number`: `Field(min_length=7, max_length=20)` then
`validate_primary_phone`. -/
def vPhoneField (v : Option String) : Except FieldError String :=
  match vRequiredStr "phone_number" 7 20 v with
  | .error e => .error e
  | .ok s => _validate_phone s "phone_number"

/-- `alt_phone_number`: optional, same bounds and phone validator. -/
def vAltPhoneField (v : Option String) : Except FieldError (Option String) :=
  match v with
  | none => .ok none
  | some s =>
    match vRequiredStr "alt_phone_number" 7 20 (some s) with
    | .error e => .error e
    | .ok s' => (_validate_phone s' "alt_phone_number").map some

/-- `priority_level`: bounds 3–20, then strip + lower-case and require
one of high/medium/low. -/
def vPriorityLevel (v : Option String) : Except FieldError String :=
  match vRequiredStr "priority_level" 3 20 v with
  | .error e => .error e
  | .ok s =>
    let normalized := pyLower (pyStrip s)
    if normalized = "high" ∨ normalized = "medium" ∨ normalized = "low" then
      .ok normalized
    else
      .error ⟨"priority_level", "Priority level must be one of high, medium, or low"⟩

/-- `location_url`: bounds 5–2048, then `validate_location_url`. -/
def vLocationUrl (v : Option String) : Except FieldError String :=
  match vRequiredStr "location_url" 5 2048 v with
  | .error e => .error e
  | .ok s => _validate_url s "location_url"

/-- `image_urls`: optional, then `validate_image_urls`. -/
def vImageUrls (v : Option (List String)) :
    Except FieldError (Option (List String)) :=
  match v with
  | none => .ok none
  | some urls => (_validate_urls urls).map some

/-- The raw submission payload reaching `validate_with_app_error`
(`None`-valued keys already dropped; the boolean form fields always carry
a boolean and never fail validation). -/
structure RawPost where
  full_name : Option String := none
  phone_number : Option String := none
  alt_phone_number : Option String := none
  location : Option String := none
  land_mark : Option String := none
  district : Option String := none
  emergency_type : Option String := none
  priority_level : Option String := none
  number_of_peoples_to_rescue : Option Int := none
  is_medical_needed : Bool := false
  water_level : Option String := none
  safe_hours : Option Int := none
  need_foods : Bool := false
  need_water : Bool := false
  need_transport : Bool := false
  need_medic : Bool := false
  need_power : Bool := false
  need_clothes : Bool := false
  description : Option String := none
  location_url : Option String := none
  image_urls : Option (List String) := none
  deriving Repr, DecidableEq

/-- The validated, normalized `RescuePostCreate` record. -/
structure RescuePostCreate where
  full_name : String
  phone_number : String
  alt_phone_number : Option String
  location : String
  land_mark : Option String
  district : Option String
  emergency_type : String
  priority_level : String
  number_of_peoples_to_rescue : Option Int
  is_medical_needed : Bool
  water_level : Option String
  safe_hours : Option Int
  need_foods : Bool
  need_water : Bool
  need_transport : Bool
  need_medic : Bool
  need_power : Bool
  need_clothes : Bool
  description : Option String
  location_url : String
  image_urls : Option (List String)
  deriving Repr, DecidableEq

/-- The error of one field's validation chain, as a (possibly empty)
list. -/
def errList {α : Type} : Except FieldError α → List FieldError
  | .error e => [e]
  | .ok _ => []

/-- All field errors pydantic collects for a payload, in field
declaration order. -/
def collectFieldErrors (raw : RawPost) : List FieldError :=
  errList (vRequiredStr "full_name" 3 150 raw.full_name)
  ++ errList (vPhoneField raw.phone_number)
  ++ errList (vAltPhoneField raw.alt_phone_number)
  ++ errList (vRequiredStr "location" 3 255 raw.location)
  ++ errList (vOptionalStr "land_mark" 0 255 raw.land_mark)
  ++ errList (vOptionalStr "district" 0 100 raw.district)
  ++ errList (vRequiredStr "emergency_type" 3 100 raw.emergency_type)
  ++ errList (vPriorityLevel raw.priority_level)
  ++ errList (vOptionalInt "number_of_peoples_to_rescue" 1 10000
       raw.number_of_peoples_to_rescue)
  ++ errList (vOptionalStr "water_level" 0 50 raw.water_level)
  ++ errList (vOptionalInt "safe_hours" 0 1000 raw.safe_hours)
  ++ errList (vOptionalStr "description" 0 2000 raw.description)
  ++ errList (vLocationUrl raw.location_url)
  ++ errList (vImageUrls raw.image_urls)

/-- The model built when every field validated (each `getD` default is
unreachable then). -/
def buildRecord (raw : RawPost) : RescuePostCreate :=
  { full_name := (vRequiredStr "full_name" 3 150 raw.full_name).toOption.getD ""
  , phone_number := (vPhoneField raw.phone_number).toOption.getD ""
  , alt_phone_number := ((vAltPhoneField raw.alt_phone_number).toOption.getD none)
  , location := (vRequiredStr "location" 3 255 raw.location).toOption.getD ""
  , land_mark := (vOptionalStr "land_mark" 0 255 raw.land_mark).toOption.getD none
  , district := (vOptionalStr "district" 0 100 raw.district).toOption.getD none
  , emergency_type :=
      (vRequiredStr "emergency_type" 3 100 raw.emergency_type).toOption.getD ""
  , priority_level := (vPriorityLevel raw.priority_level).toOption.getD ""
  , number_of_peoples_to_rescue :=
      (vOptionalInt "number_of_peoples_to_rescue" 1 10000
        raw.number_of_peoples_to_rescue).toOption.getD none
  , is_medical_needed := raw.is_medical_needed
  , water_level := (vOptionalStr "water_level" 0 50 raw.water_level).toOption.getD none
  , safe_hours := (vOptionalInt "safe_hours" 0 1000 raw.safe_hours).toOption.getD none
  , need_foods := raw.need_foods
  , need_water := raw.need_water
  , need_transport := raw.need_transport
  , need_medic := raw.need_medic
  , need_power := raw.need_power
  , need_clothes := raw.need_clothes
  , description := (vOptionalStr "description" 0 2000 raw.description).toOption.getD none
  , location_url := (vLocationUrl raw.location_url).toOption.getD ""
  , image_urls := (vImageUrls raw.image_urls).toOption.getD none }

/-- `RescuePostCreate.validate_with_app_error`: the validated model, or
one `InvalidDataException` carrying every collected field error. -/
def validate_with_app_error (raw : RawPost) :
    Except InvalidData RescuePostCreate :=
  if collectFieldErrors raw = [] then
    .ok (buildRecord raw)
  else
    .error ⟨"Invalid rescue post data", collectFieldErrors raw⟩

/-! Independent per-field violation predicates, stated directly from the
schema's rules, against which the collected error list is measured. -/

/-- A required bounded string field is violated: missing or out of
bounds. -/
def strReqViolated (minLen maxLen : Nat) : Option String → Bool
  | none => true
  | some s => decide (s.length < minLen) || decide (s.length > maxLen)

/-- An optional bounded string field is violated. -/
def strOptViolated (minLen maxLen : Nat) : Option String → Bool
  | none => false
  | some s => decide (s.length < minLen) || decide (s.length > maxLen)

/-- An optional bounded integer field is violated. -/
def intOptViolated (lo hi : Int) : Option Int → Bool
  | none => false
  | some n => decide (n < lo) || decide (n > hi)

/-- The stripped digit count of a phone string is outside 7–15. -/
def phoneDigitsOutOfRange (s : String) : Bool :=
  decide ((s.data.filter Char.isDigit).length < 7)
  || decide ((s.data.filter Char.isDigit).length > 15)

/-- The required primary phone field is violated. -/
def phoneViolated : Option String → Bool
  | none => true
  | some s => decide (s.length < 7) || decide (s.length > 20) || phoneDigitsOutOfRange s

/-- The optional alternate phone field is violated. -/
def altPhoneViolated : Option String → Bool
  | none => false
  | some s => phoneViolated (some s)

/-- The priority level field is violated: missing, out of bounds, or not
one of high/medium/low after strip + lower-case. -/
def priorityLevelViolated : Option String → Bool
  | none => true
  | some s => decide (s.length < 3) || decide (s.length > 20)
      || !(decide (pyLower (pyStrip s) = "high") || decide (pyLower (pyStrip s) = "medium")
           || decide (pyLower (pyStrip s) = "low"))

/-- The location URL field is violated: missing, out of bounds, blank
after stripping, or lacking an http/https scheme. -/
def locationUrlViolated : Option String → Bool
  | none => true
  | some s => decide (s.length < 5) || decide (s.length > 2048)
      || decide (pyStrip s = "")
      || !(pyStartsWith (pyStrip s) "http://" || pyStartsWith (pyStrip s) "https://")

/-- The optional image-URL list is violated: some non-blank entry lacks
an http/https scheme, or every entry is blank. -/
def imageUrlsViolated : Option (List String) → Bool
  | none => false
  | some urls =>
      urls.any (fun u => !decide (pyStrip u = "")
        && !(pyStartsWith (pyStrip u) "http://" || pyStartsWith (pyStrip u) "https://"))
      || urls.all (fun u => decide (pyStrip u = ""))

/-- The violated field names of a payload, in field declaration order. -/
def violatedNames (raw : RawPost) : List String :=
  (if strReqViolated 3 150 raw.full_name then ["full_name"] else [])
  ++ (if phoneViolated raw.phone_number then ["phone_number"] else [])
  ++ (if altPhoneViolated raw.alt_phone_number then ["alt_phone_number"] else [])
  ++ (if strReqViolated 3 255 raw.location then ["location"] else [])
  ++ (if strOptViolated 0 255 raw.land_mark then ["land_mark"] else [])
  ++ (if strOptViolated 0 100 raw.district then ["district"] else [])
  ++ (if strReqViolated 3 100 raw.emergency_type then ["emergency_type"] else [])
  ++ (if priorityLevelViolated raw.priority_level then ["priority_level"] else [])
  ++ (if intOptViolated 1 10000 raw.number_of_peoples_to_rescue
        then ["number_of_peoples_to_rescue"] else [])
  ++ (if strOptViolated 0 50 raw.water_level then ["water_level"] else [])
  ++ (if intOptViolated 0 1000 raw.safe_hours then ["safe_hours"] else [])
  ++ (if strOptViolated 0 2000 raw.description then ["description"] else [])
  ++ (if locationUrlViolated raw.location_url then ["location_url"] else [])
  ++ (if imageUrlsViolated raw.image_urls then ["image_urls"] else [])

lemma errList_map_except {α β : Type} (f : α → β) (x : Except FieldError α) :
    errList (x.map f) = errList x := by
  cases x <;> rfl

lemma errmap_vRequiredStr (name : String) (minLen maxLen : Nat) (v : Option String) :
    (errList (vRequiredStr name minLen maxLen v)).map FieldError.field
      = if strReqViolated minLen maxLen v then [name] else [] := by
  cases v with
  | none => simp [vRequiredStr, errList, strReqViolated]
  | some s =>
    simp only [vRequiredStr, strReqViolated]
    split_ifs <;> simp_all [errList] <;> omega

lemma errmap_vOptionalStr (name : String) (minLen maxLen : Nat) (v : Option String) :
    (errList (vOptionalStr name minLen maxLen v)).map FieldError.field
      = if strOptViolated minLen maxLen v then [name] else [] := by
  cases v with
  | none => simp [vOptionalStr, errList, strOptViolated]
  | some s =>
    rw [vOptionalStr, errList_map_except, errmap_vRequiredStr]
    simp [strReqViolated, strOptViolated]

lemma errmap_vOptionalInt (name : String) (lo hi : Int) (v : Option Int) :
    (errList (vOptionalInt name lo hi v)).map FieldError.field
      = if intOptViolated lo hi v then [name] else [] := by
  cases v with
  | none => simp [vOptionalInt, errList, intOptViolated]
  | some n =>
    simp only [vOptionalInt, intOptViolated]
    split_ifs <;> simp_all [errList] <;> omega

lemma errmap_vPhoneField (v : Option String) :
    (errList (vPhoneField v)).map FieldError.field
      = if phoneViolated v then ["phone_number"] else [] := by
  cases v with
  | none => simp [vPhoneField, vRequiredStr, errList, phoneViolated]
  | some s =>
    by_cases h1 : s.length < 7
    · simp [vPhoneField, vRequiredStr, errList, phoneViolated, h1]
    · by_cases h2 : s.length > 20
      · simp [vPhoneField, vRequiredStr, errList, phoneViolated, h1, h2]
      · by_cases h3 : (s.data.filter Char.isDigit).length < 7
          ∨ (s.data.filter Char.isDigit).length > 15
        · simp [vPhoneField, vRequiredStr, _validate_phone, errList, phoneViolated,
            phoneDigitsOutOfRange, h1, h2, h3]
        · simp [vPhoneField, vRequiredStr, _validate_phone, errList, phoneViolated,
            phoneDigitsOutOfRange, h1, h2, h3]

lemma errmap_vAltPhoneField (v : Option String) :
    (errList (vAltPhoneField v)).map FieldError.field
      = if altPhoneViolated v then ["alt_phone_number"] else [] := by
  cases v with
  | none => simp [vAltPhoneField, errList, altPhoneViolated]
  | some s =>
    by_cases h1 : s.length < 7
    · simp [vAltPhoneField, vRequiredStr, errList, altPhoneViolated, phoneViolated, h1]
    · by_cases h2 : s.length > 20
      · simp [vAltPhoneField, vRequiredStr, errList, altPhoneViolated, phoneViolated,
          h1, h2]
      · have hstep : vAltPhoneField (some s)
            = (_validate_phone s "alt_phone_number").map some := by
          simp [vAltPhoneField, vRequiredStr, h1, h2]
        rw [hstep, errList_map_except]
        by_cases h3 : (s.data.filter Char.isDigit).length < 7
          ∨ (s.data.filter Char.isDigit).length > 15
        · simp [_validate_phone, errList, altPhoneViolated, phoneViolated,
            phoneDigitsOutOfRange, h1, h2, h3]
        · simp [_validate_phone, errList, altPhoneViolated, phoneViolated,
            phoneDigitsOutOfRange, h1, h2, h3]

lemma errmap_vPriorityLevel (v : Option String) :
    (errList (vPriorityLevel v)).map FieldError.field
      = if priorityLevelViolated v then ["priority_level"] else [] := by
  cases v with
  | none => simp [vPriorityLevel, vRequiredStr, errList, priorityLevelViolated]
  | some s =>
    by_cases h1 : s.length < 3
    · simp [vPriorityLevel, vRequiredStr, errList, priorityLevelViolated, h1]
    · by_cases h2 : s.length > 20
      · simp [vPriorityLevel, vRequiredStr, errList, priorityLevelViolated, h1, h2]
      · by_cases h3 : pyLower (pyStrip s) = "high" ∨ pyLower (pyStrip s) = "medium"
          ∨ pyLower (pyStrip s) = "low"
        · rcases h3 with h | h | h <;>
            simp [vPriorityLevel, vRequiredStr, errList, priorityLevelViolated,
              h1, h2, h]
        · push_neg at h3
          obtain ⟨ha, hb, hc⟩ := h3
          simp [vPriorityLevel, vRequiredStr, errList, priorityLevelViolated,
            h1, h2, ha, hb, hc]

lemma errmap_vLocationUrl (v : Option String) :
    (errList (vLocationUrl v)).map FieldError.field
      = if locationUrlViolated v then ["location_url"] else [] := by
  cases v with
  | none => simp [vLocationUrl, vRequiredStr, errList, locationUrlViolated]
  | some s =>
    by_cases h1 : s.length < 5
    · simp [vLocationUrl, vRequiredStr, errList, locationUrlViolated, h1]
    · by_cases h2 : s.length > 2048
      · simp [vLocationUrl, vRequiredStr, errList, locationUrlViolated, h1, h2]
      · by_cases h3 : pyStrip s = ""
        · simp [vLocationUrl, vRequiredStr, _validate_url, errList,
            locationUrlViolated, h1, h2, h3]
        · by_cases h4 : (pyStartsWith (pyStrip s) "http://" || pyStartsWith (pyStrip s) "https://")
            = true
          · simp [vLocationUrl, vRequiredStr, _validate_url, errList,
              locationUrlViolated, h1, h2, h3, h4]
          · rw [Bool.not_eq_true] at h4
            simp [vLocationUrl, vRequiredStr, _validate_url, errList,
              locationUrlViolated, h1, h2, h3, h4]

lemma cleanUrls_spec (urls : List String) :
    (∃ e, cleanUrls urls = .error e ∧ e.field = "image_urls"
       ∧ urls.any (fun u => !decide (pyStrip u = "")
           && !(pyStartsWith (pyStrip u) "http://" || pyStartsWith (pyStrip u) "https://")) = true)
    ∨ (∃ l, cleanUrls urls = .ok l
       ∧ urls.any (fun u => !decide (pyStrip u = "")
           && !(pyStartsWith (pyStrip u) "http://" || pyStartsWith (pyStrip u) "https://")) = false
       ∧ (l.isEmpty = true ↔ urls.all (fun u => decide (pyStrip u = "")) = true)) := by
  induction urls with
  | nil => exact .inr ⟨[], rfl, by simp, by simp⟩
  | cons u rest ih =>
    by_cases h1 : pyStrip u = ""
    · have hfu : (!decide (pyStrip u = "")
          && !(pyStartsWith (pyStrip u) "http://" || pyStartsWith (pyStrip u) "https://")) = false := by
        simp [h1]
      have hgu : decide (pyStrip u = "") = true := by simp [h1]
      rcases ih with ⟨e, hc, hf, ha⟩ | ⟨l, hc, ha, hemp⟩
      · refine .inl ⟨e, by simp [cleanUrls, h1, hc], hf, ?_⟩
        simp only [List.any_cons, hfu, Bool.false_or]
        exact ha
      · refine .inr ⟨l, by simp [cleanUrls, h1, hc], ?_, ?_⟩
        · simp only [List.any_cons, hfu, Bool.false_or]
          exact ha
        · simp only [List.all_cons, hgu, Bool.true_and]
          exact hemp
    · by_cases h2 : (pyStartsWith (pyStrip u) "http://" || pyStartsWith (pyStrip u) "https://") = true
      · have hfu : (!decide (pyStrip u = "")
            && !(pyStartsWith (pyStrip u) "http://" || pyStartsWith (pyStrip u) "https://")) = false := by
          simp [h2]
        have hgu : decide (pyStrip u = "") = false := by simp [h1]
        rcases ih with ⟨e, hc, hf, ha⟩ | ⟨l, hc, ha, hemp⟩
        · refine .inl ⟨e, ?_, hf, ?_⟩
          · simp [cleanUrls, h1, h2, hc]
          · simp only [List.any_cons, hfu, Bool.false_or]
            exact ha
        · refine .inr ⟨pyStrip u :: l, ?_, ?_, ?_⟩
          · simp [cleanUrls, h1, h2, hc]
          · simp only [List.any_cons, hfu, Bool.false_or]
            exact ha
          · simp only [List.all_cons, hgu, Bool.false_and, List.isEmpty_cons]
      · rw [Bool.not_eq_true] at h2
        have hfu : (!decide (pyStrip u = "")
            && !(pyStartsWith (pyStrip u) "http://" || pyStartsWith (pyStrip u) "https://")) = true := by
          rw [h2]
          simp [h1]
        refine .inl ⟨⟨"image_urls", "Image URLs must start with http:// or https://"⟩,
          ?_, rfl, ?_⟩
        · simp [cleanUrls, h1, h2]
        · simp only [List.any_cons, hfu, Bool.true_or]

lemma errmap_vImageUrls (v : Option (List String)) :
    (errList (vImageUrls v)).map FieldError.field
      = if imageUrlsViolated v then ["image_urls"] else [] := by
  cases v with
  | none => simp [vImageUrls, errList, imageUrlsViolated]
  | some urls =>
    have hval : vImageUrls (some urls) = (_validate_urls urls).map some := rfl
    rw [hval, errList_map_except]
    rcases cleanUrls_spec urls with ⟨e, hc, hf, ha⟩ | ⟨l, hc, ha, hemp⟩
    · have hviol : imageUrlsViolated (some urls) = true := by
        simp only [imageUrlsViolated, ha, Bool.true_or]
      rw [hviol]
      simp [_validate_urls, hc, errList, hf]
    · by_cases hl : l.isEmpty = true
      · have hall : urls.all (fun u => decide (pyStrip u = "")) = true := hemp.mp hl
        have hviol : imageUrlsViolated (some urls) = true := by
          simp only [imageUrlsViolated, hall, Bool.or_true]
        rw [hviol]
        simp [_validate_urls, hc, hl, errList]
      · have hall : urls.all (fun u => decide (pyStrip u = "")) = false := by
          cases h : urls.all (fun u => decide (pyStrip u = "")) with
          | true => exact absurd (hemp.mpr h) hl
          | false => rfl
        have hviol : imageUrlsViolated (some urls) = false := by
          simp only [imageUrlsViolated, ha, hall, Bool.or_false]
        rw [Bool.not_eq_true] at hl
        rw [hviol]
        simp [_validate_urls, hc, hl, errList]

/-- The collected error list reports exactly the violated fields, in
order. -/
lemma collect_eq_violated (raw : RawPost) :
    (collectFieldErrors raw).map FieldError.field = violatedNames raw := by
  unfold collectFieldErrors violatedNames
  simp only [List.map_append, errmap_vRequiredStr, errmap_vOptionalStr,
    errmap_vOptionalInt, errmap_vPhoneField, errmap_vAltPhoneField,
    errmap_vPriorityLevel, errmap_vLocationUrl, errmap_vImageUrls]

/-- C3: a payload violating the rules on at least two fields fails with a
single structured error whose details list one `{field, message}` entry
per violated field — every violated field is present, not only the
first. -/
theorem c3_validation_aggregates_all_fields (raw : RawPost)
    (h : 2 ≤ (violatedNames raw).length) :
    ∃ errs : List FieldError,
      validate_with_app_error raw = .error ⟨"Invalid rescue post data", errs⟩
      ∧ errs.map FieldError.field = violatedNames raw
      ∧ 2 ≤ errs.length
      ∧ ∀ name ∈ violatedNames raw, ∃ e ∈ errs, e.field = name := by
  have hmap := collect_eq_violated raw
  have hlen : (collectFieldErrors raw).length = (violatedNames raw).length := by
    rw [← hmap, List.length_map]
  have hne : collectFieldErrors raw ≠ [] := by
    intro h0
    rw [h0] at hlen
    simp at hlen
    omega
  refine ⟨collectFieldErrors raw, by simp [validate_with_app_error, hne], hmap,
    by omega, ?_⟩
  intro name hn
  rw [← hmap] at hn
  obtain ⟨e, he, rfl⟩ := List.mem_map.mp hn
  exact ⟨e, he, rfl⟩

/-- A payload violating exactly two fields: a 3-digit phone number and an
unknown priority level. -/
def c3ExampleRaw : RawPost :=
  { full_name := some "Nimal Perera", phone_number := some "123",
    location := some "Colombo Fort", emergency_type := some "flood",
    priority_level := some "urgent",
    location_url := some "https://maps.example/a" }

/-- Witness for C3: the two-violation payload yields one error listing
both fields. -/
theorem c3_validation_aggregates_all_fields_witness :
    ∃ errs : List FieldError,
      validate_with_app_error c3ExampleRaw = .error ⟨"Invalid rescue post data", errs⟩
      ∧ errs.map FieldError.field = violatedNames c3ExampleRaw
      ∧ 2 ≤ errs.length
      ∧ ∀ name ∈ violatedNames c3ExampleRaw, ∃ e ∈ errs, e.field = name :=
  c3_validation_aggregates_all_fields c3ExampleRaw (by decide)

/-- C4 counterexample: a 21-character string with 11 digits is rejected
by the phone field although its digit count lies in 7–15 (the raw-length
bound 7–20 applies before stripping). -/
theorem c4_counterexample :
    7 ≤ ("1-2-3-4-5-6-7-8-9-0-1".data.filter Char.isDigit).length
    ∧ ("1-2-3-4-5-6-7-8-9-0-1".data.filter Char.isDigit).length ≤ 15
    ∧ ∃ e : FieldError, vPhoneField (some "1-2-3-4-5-6-7-8-9-0-1") = .error e
        ∧ e.message = "Must be at most 20 characters long" := by
  exact ⟨by decide, by decide, ⟨"phone_number", "Must be at most 20 characters long"⟩,
    rfl, rfl⟩

lemma phone_ok_iff (s field_name : String) :
    (∃ d, _validate_phone s field_name = .ok d) ↔
      (7 ≤ (s.data.filter Char.isDigit).length
        ∧ (s.data.filter Char.isDigit).length ≤ 15) := by
  simp only [_validate_phone]
  split_ifs with h
  · constructor
    · rintro ⟨d, hd⟩
      simp at hd
    · intro hx
      omega
  · constructor
    · intro _
      omega
    · intro _
      exact ⟨_, rfl⟩

lemma phone_ok_data (s field_name d : String)
    (hd : _validate_phone s field_name = .ok d) :
    d.data = s.data.filter Char.isDigit := by
  simp only [_validate_phone] at hd
  split_ifs at hd with h
  exact (congrArg String.data (Except.ok.inj hd)).symm

lemma vPhoneField_inbounds (s : String) (h7 : 7 ≤ s.length) (h20 : s.length ≤ 20) :
    vPhoneField (some s) = _validate_phone s "phone_number" := by
  simp only [vPhoneField, vRequiredStr]
  rw [if_neg (by omega), if_neg (by omega)]

/-- C4 (amended): `_validate_phone` strips non-digits before its length
check and accepts exactly 7–15 digits, returning the digit characters;
the field pipeline first bounds the raw string to 7–20 characters, and
within those bounds acceptance is again exactly a 7–15 digit count;
beyond 20 raw characters the input is rejected regardless of digit
count. -/
theorem c4_phone_digit_stripping (s : String) (field_name : String) :
    ((∃ d, _validate_phone s field_name = .ok d) ↔
      (7 ≤ (s.data.filter Char.isDigit).length
        ∧ (s.data.filter Char.isDigit).length ≤ 15))
    ∧ (∀ d, _validate_phone s field_name = .ok d → d.data = s.data.filter Char.isDigit)
    ∧ (7 ≤ s.length → s.length ≤ 20 →
        ((∃ d, vPhoneField (some s) = .ok d) ↔
          (7 ≤ (s.data.filter Char.isDigit).length
            ∧ (s.data.filter Char.isDigit).length ≤ 15)))
    ∧ (s.length > 20 → ∃ e, vPhoneField (some s) = .error e) := by
  refine ⟨phone_ok_iff s field_name, fun d hd => phone_ok_data s field_name d hd,
    ?_, ?_⟩
  · intro h7 h20
    rw [vPhoneField_inbounds s h7 h20]
    exact phone_ok_iff s "phone_number"
  · intro hgt
    have hstep : vPhoneField (some s)
        = .error ⟨"phone_number",
            "Must be at most " ++ toString 20 ++ " characters long"⟩ := by
      simp only [vPhoneField, vRequiredStr]
      rw [if_neg (by omega), if_pos (by omega)]
    exact ⟨_, hstep⟩

/-- Witness for C4 (amended): a 12-character input with 10 digits passes
the full field pipeline; the theorem applied at the concrete strings. -/
theorem c4_phone_digit_stripping_witness :
    (∃ d, vPhoneField (some "071-234-5678") = .ok d)
    ∧ ∃ e, vPhoneField (some "1-2-3-4-5-6-7-8-9-0-1") = .error e :=
  ⟨((c4_phone_digit_stripping "071-234-5678" "phone_number").2.2.1
      (by decide) (by decide)).mpr (by decide),
   (c4_phone_digit_stripping "1-2-3-4-5-6-7-8-9-0-1" "phone_number").2.2.2 (by decide)⟩

/-! ### Persisted phone values (`create_rescue_post_with_images`,
lines 112–115 of `posts_service.py`) -/

/-- Python `int(...)` on a string of decimal digit characters. -/
def pyIntOfDigits (l : List Char) : Nat :=
  l.foldl (fun n c => n * 10 + (c.toNat - 48)) 0

/-- A value as it lands in an insert-payload column: either a JSON
string or a JSON integer. -/
inductive DBValue where
  | str : String → DBValue
  | int : Nat → DBValue
  deriving Repr, DecidableEq

/-- The phone columns of the insert payload: the service overwrites both
with `int(validated.phone_number)` / `int(validated.alt_phone_number)`. -/
def persistedPhoneFields (v : RescuePostCreate) : DBValue × Option DBValue :=
  (DBValue.int (pyIntOfDigits v.phone_number.data),
   v.alt_phone_number.map (fun d => DBValue.int (pyIntOfDigits d.data)))

/-- A valid payload whose phone number starts with the digit 0. -/
def c5ExampleRaw : RawPost :=
  { full_name := some "Sunil Silva", phone_number := some "0712345678",
    location := some "Galle Road", emergency_type := some "flood",
    priority_level := some "high",
    location_url := some "https://maps.example/b" }

/-- C5 counterexample: the post created from a validated phone number
"0712345678" persists the integer 712345678, not a digit string, and
the leading zero is lost in the decimal rendering. -/
theorem c5_counterexample :
    ∃ v : RescuePostCreate,
      validate_with_app_error c5ExampleRaw = .ok v
      ∧ v.phone_number = "0712345678"
      ∧ (persistedPhoneFields v).1 = DBValue.int 712345678
      ∧ (∀ s : String, (persistedPhoneFields v).1 ≠ DBValue.str s)
      ∧ Nat.repr 712345678 ≠ "0712345678" := by
  refine ⟨buildRecord c5ExampleRaw, ?_, by decide, by decide, ?_, by decide⟩
  · have h : collectFieldErrors c5ExampleRaw = [] := by decide
    simp [validate_with_app_error, h]
  · intro s h
    exact DBValue.noConfusion h

/-- C5 (amended): the persisted phone fields are the `int(...)` values of
the validated digit strings — integers, not strings — so the digits are
preserved only up to leading zeros, which the integer conversion drops. -/
theorem c5_persisted_phone_is_int (v : RescuePostCreate) :
    (persistedPhoneFields v).1 = DBValue.int (pyIntOfDigits v.phone_number.data)
    ∧ (∀ d, v.alt_phone_number = some d →
        (persistedPhoneFields v).2 = some (DBValue.int (pyIntOfDigits d.data)))
    ∧ (v.alt_phone_number = none → (persistedPhoneFields v).2 = none)
    ∧ (∀ l : List Char, pyIntOfDigits ('0' :: l) = pyIntOfDigits l) := by
  refine ⟨rfl, ?_, ?_, fun l => rfl⟩
  · intro d hd
    simp [persistedPhoneFields, hd]
  · intro hd
    simp [persistedPhoneFields, hd]

/-- A validated record carrying an alternate phone number. -/
def c5AltExample : RescuePostCreate :=
  { buildRecord c5ExampleRaw with alt_phone_number := some "0112223334" }

/-- Witness for C5 (amended): the conversion at a record with and without
an alternate number, and the zero-dropping at a concrete digit list. -/
theorem c5_persisted_phone_is_int_witness :
    (persistedPhoneFields (buildRecord c5ExampleRaw)).2 = none
    ∧ (persistedPhoneFields c5AltExample).2
        = some (DBValue.int (pyIntOfDigits "0112223334".data))
    ∧ pyIntOfDigits ('0' :: ['7', '1']) = pyIntOfDigits ['7', '1'] :=
  ⟨(c5_persisted_phone_is_int (buildRecord c5ExampleRaw)).2.2.1 (by decide),
   (c5_persisted_phone_is_int c5AltExample).2.1 "0112223334" rfl,
   (c5_persisted_phone_is_int c5AltExample).2.2.2 ['7', '1']⟩

/-! ### Image intake (`upload_images_to_spaces`) -/

/-- An incoming `UploadFile`: filename, declared content type, raw
bytes. -/
structure UploadedFile where
  filename : Option String := none
  content_type : Option String := none
  content : List Nat := []
  deriving Repr, DecidableEq

/-- The Spaces-related settings fields used by the uploader.
`digitalocean_upload_path` models the configured upload path piece
(`DIGITALOCEAN_UPLOAD_PREFIX` after stripping slashes; empty means bucket
root). -/
structure SpacesSettings where
  digitalocean_bucket : String := "bucket"
  digitalocean_cdn_endpoint : String := ""
  digitalocean_upload_path : String := "posts_images"
  digitalocean_max_file_size_mb : Nat := 5
  deriving Repr, DecidableEq

/-- `content_type or mimetypes.guess_type(filename)[0]`; the `mimetypes`
table is an environment parameter `guessType`. -/
def effectiveContentType (guessType : String → Option String)
    (u : UploadedFile) : Option String :=
  match u.content_type with
  | some t => if t = "" then guessType (u.filename.getD "") else some t
  | none => guessType (u.filename.getD "")

/-- `os.path.splitext(filename)[1]`: the suffix from the last dot of the
basename; empty when the basename has no dot after its leading dots. -/
def splitextExt (filename : String) : String :=
  let base := (filename.data.reverse.takeWhile (fun c => c ≠ '/')).reverse
  if (base.dropWhile (fun c => c = '.')).contains '.' then
    ⟨'.' :: (base.reverse.takeWhile (fun c => c ≠ '.')).reverse⟩
  else
    ""

/-- The object key of the `i`-th file: random hex name (the `uuid4().hex`
stream is the parameter `gen`) plus original extension, under the
optional upload path. -/
def keyFor (settings : SpacesSettings) (gen : Nat → String) (i : Nat)
    (u : UploadedFile) : String :=
  let object_name := gen i ++ splitextExt (u.filename.getD "")
  if settings.digitalocean_upload_path ≠ "" then
    settings.digitalocean_upload_path ++ "/" ++ object_name
  else
    object_name

/-- The CDN URL appended for the `i`-th file. -/
def urlFor (settings : SpacesSettings) (gen : Nat → String) (i : Nat)
    (u : UploadedFile) : String :=
  settings.digitalocean_cdn_endpoint ++ "/projectrakawarananew/"
    ++ keyFor settings gen i u

/-- The keys of a run of files starting at index `i`. -/
def keysFor (settings : SpacesSettings) (gen : Nat → String) :
    Nat → List UploadedFile → List String
  | _, [] => []
  | i, u :: rest => keyFor settings gen i u :: keysFor settings gen (i + 1) rest

/-- The CDN URLs of a run of files starting at index `i`. -/
def urlsFor (settings : SpacesSettings) (gen : Nat → String) :
    Nat → List UploadedFile → List String
  | _, [] => []
  | i, u :: rest => urlFor settings gen i u :: urlsFor settings gen (i + 1) rest

/-- The per-file loop of `upload_images_to_spaces`.  The pair collects
the keys actually written to object storage (each successful
`put_object`, a success decided by the environment parameter `putOk`)
alongside the Python result: the CDN URL list, or the raised error. -/
def uploadLoop (guessType : String → Option String) (gen : Nat → String)
    (putOk : String → Bool) (settings : SpacesSettings) :
    Nat → List UploadedFile → List String → List String →
      List String × Except AppError (List String)
  | _, [], written, urls => (written, .ok urls)
  | i, u :: rest, written, urls =>
    if pyFalsyStr u.filename then
      (written, .error ⟨"Image file must have a filename", 400⟩)
    else
      match effectiveContentType guessType u with
      | none => (written, .error ⟨"Only image uploads are allowed", 400⟩)
      | some t =>
        if t = "" ∨ ¬ pyStartsWith t "image/" = true then
          (written, .error ⟨"Only image uploads are allowed", 400⟩)
        else if u.content.isEmpty then
          (written, .error ⟨"Image file is empty", 400⟩)
        else if u.content.length
            > settings.digitalocean_max_file_size_mb * 1024 * 1024 then
          (written, .error ⟨"Image file exceeds "
            ++ toString settings.digitalocean_max_file_size_mb ++ "MB", 400⟩)
        else if putOk (keyFor settings gen i u) then
          uploadLoop guessType gen putOk settings (i + 1) rest
            (written ++ [keyFor settings gen i u])
            (urls ++ [urlFor settings gen i u])
        else
          (written, .error ⟨"Failed to upload image", 500⟩)

/-- `upload_images_to_spaces`: reject an empty batch, then run the
per-file loop. -/
def upload_images_to_spaces (guessType : String → Option String)
    (gen : Nat → String) (putOk : String → Bool) (settings : SpacesSettings)
    (files : List UploadedFile) :
    List String × Except AppError (List String) :=
  if files.isEmpty then
    ([], .error ⟨"At least one image file is required", 400⟩)
  else
    uploadLoop guessType gen putOk settings 0 files [] []

/-- A file passes every per-file check of the uploader. -/
def fileValid (guessType : String → Option String) (maxBytes : Nat)
    (u : UploadedFile) : Bool :=
  !pyFalsyStr u.filename
  && (match effectiveContentType guessType u with
      | none => false
      | some t => !decide (t = "") && pyStartsWith t "image/")
  && !u.content.isEmpty
  && decide (u.content.length ≤ maxBytes)

lemma uploadLoop_valid_run (guessType : String → Option String)
    (gen : Nat → String) (putOk : String → Bool) (settings : SpacesSettings)
    (pre : List UploadedFile) :
    ∀ (i : Nat) (written urls : List String) (rest : List UploadedFile),
      (∀ u ∈ pre, fileValid guessType
          (settings.digitalocean_max_file_size_mb * 1024 * 1024) u = true) →
      (∀ k, putOk k = true) →
      uploadLoop guessType gen putOk settings i (pre ++ rest) written urls
        = uploadLoop guessType gen putOk settings (i + pre.length) rest
            (written ++ keysFor settings gen i pre)
            (urls ++ urlsFor settings gen i pre) := by
  induction pre with
  | nil =>
    intro i written urls rest _ _
    simp [keysFor, urlsFor]
  | cons u pre ih =>
    intro i written urls rest hval hput
    have hu := hval u (List.mem_cons_self _ _)
    have hf : pyFalsyStr u.filename = false := by
      cases h : pyFalsyStr u.filename
      · rfl
      · rw [fileValid, h] at hu
        simp at hu
    rcases hc : effectiveContentType guessType u with _ | t
    · rw [fileValid, hc] at hu
      simp at hu
    · rw [fileValid, hc] at hu
      simp only [Bool.and_eq_true, Bool.not_eq_true', decide_eq_true_eq] at hu
      obtain ⟨⟨⟨-, ht1, ht2⟩, hne⟩, hlen⟩ := hu
      rw [List.cons_append]
      simp only [uploadLoop, hf, Bool.false_eq_true, if_false, hc]
      have hcond : ¬ (t = "" ∨ ¬ pyStartsWith t "image/" = true) := by
        rintro (he | hns)
        · rw [he] at ht1
          simp at ht1
        · exact hns ht2
      rw [if_neg hcond, if_neg (by simp [hne]), if_neg (by omega), if_pos (hput _)]
      rw [ih (i + 1) (written ++ [keyFor settings gen i u])
        (urls ++ [urlFor settings gen i u]) rest
        (fun v hv => hval v (List.mem_cons_of_mem _ hv)) hput]
      have harith : i + 1 + pre.length = i + (u :: pre).length := by
        simp only [List.length_cons]
        omega
      rw [harith]
      simp only [keysFor, urlsFor, List.append_assoc, List.singleton_append]

lemma uploadLoop_invalid_head (guessType : String → Option String)
    (gen : Nat → String) (putOk : String → Bool) (settings : SpacesSettings)
    (i : Nat) (written urls : List String) (rest : List UploadedFile)
    (u : UploadedFile)
    (hbad : fileValid guessType
        (settings.digitalocean_max_file_size_mb * 1024 * 1024) u = false) :
    ∃ e : AppError,
      uploadLoop guessType gen putOk settings i (u :: rest) written urls
        = (written, .error e) ∧ e.status_code = 400 := by
  cases hf : pyFalsyStr u.filename with
  | true =>
    exact ⟨⟨"Image file must have a filename", 400⟩, by simp [uploadLoop, hf], rfl⟩
  | false =>
    rcases hc : effectiveContentType guessType u with _ | t
    · exact ⟨⟨"Only image uploads are allowed", 400⟩, by simp [uploadLoop, hf, hc], rfl⟩
    · by_cases h3 : t = "" ∨ ¬ pyStartsWith t "image/" = true
      · exact ⟨⟨"Only image uploads are allowed", 400⟩,
          by simp only [uploadLoop, hf, Bool.false_eq_true, if_false, hc];
             rw [if_pos h3], rfl⟩
      · by_cases h4 : u.content.isEmpty = true
        · exact ⟨⟨"Image file is empty", 400⟩,
            by simp only [uploadLoop, hf, Bool.false_eq_true, if_false, hc];
               rw [if_neg h3, if_pos h4], rfl⟩
        · have h3' : ¬ t = "" ∧ pyStartsWith t "image/" = true := by
            constructor
            · intro he
              exact h3 (Or.inl he)
            · by_contra hns
              exact h3 (Or.inr hns)
          have hbig : u.content.length
              > settings.digitalocean_max_file_size_mb * 1024 * 1024 := by
            by_contra hsm
            push_neg at hsm
            rw [fileValid, hc] at hbad
            rw [Bool.not_eq_true] at h4
            simp [hf, h3'.1, h3'.2, h4, hsm] at hbad
          exact ⟨⟨"Image file exceeds "
              ++ toString settings.digitalocean_max_file_size_mb ++ "MB", 400⟩,
            by simp only [uploadLoop, hf, Bool.false_eq_true, if_false, hc];
               rw [if_neg h3, if_neg h4, if_pos hbig], rfl⟩

/-- C6 (amended): a batch whose first invalid file follows some valid
files fails with a caller-input error (status 400), returns no CDN URLs,
and commits exactly the uploads of the valid files before the invalid
one — those earlier writes are not rolled back, so the upload set can be
partially committed. -/
theorem c6_upload_fails_on_first_invalid (guessType : String → Option String)
    (gen : Nat → String) (putOk : String → Bool) (settings : SpacesSettings)
    (pre : List UploadedFile) (bad : UploadedFile) (rest : List UploadedFile)
    (hpre : ∀ u ∈ pre, fileValid guessType
        (settings.digitalocean_max_file_size_mb * 1024 * 1024) u = true)
    (hbad : fileValid guessType
        (settings.digitalocean_max_file_size_mb * 1024 * 1024) bad = false)
    (hput : ∀ k, putOk k = true) :
    ∃ e : AppError,
      upload_images_to_spaces guessType gen putOk settings (pre ++ bad :: rest)
        = (keysFor settings gen 0 pre, .error e)
      ∧ e.status_code = 400 := by
  rw [upload_images_to_spaces, if_neg (by simp)]
  rw [uploadLoop_valid_run guessType gen putOk settings pre 0 [] []
    (bad :: rest) hpre hput]
  simpa using uploadLoop_invalid_head guessType gen putOk settings
    (0 + pre.length) (keysFor settings gen 0 pre)
    (urlsFor settings gen 0 pre) rest bad hbad

/-- The `mimetypes` table: nothing is guessable (the test files declare
their content type). -/
def c6Guess : String → Option String := fun _ => none

/-- A constant 32-hex-character name stream. -/
def c6Gen : Nat → String := fun _ => "0123456789abcdef0123456789abcdef"

/-- Object storage accepting every write. -/
def c6PutOk : String → Bool := fun _ => true

/-- Concrete Spaces settings for the examples. -/
def c6Settings : SpacesSettings :=
  { digitalocean_bucket := "b",
    digitalocean_cdn_endpoint := "https://cdn.example.com",
    digitalocean_upload_path := "posts_images",
    digitalocean_max_file_size_mb := 5 }

/-- A valid image upload. -/
def c6GoodFile : UploadedFile :=
  { filename := some "a.jpg", content_type := some "image/jpeg", content := [1] }

/-- An invalid upload: no filename. -/
def c6BadFile : UploadedFile := { filename := none }

/-- C6 counterexample: with a valid file before an invalid one, the
operation fails with a caller-input error but the first file HAS been
written to object storage — the claim's "no file from the batch has been
written when the operation fails" is false. -/
theorem c6_counterexample :
    (upload_images_to_spaces c6Guess c6Gen c6PutOk c6Settings
        [c6GoodFile, c6BadFile]).1
      = ["posts_images/0123456789abcdef0123456789abcdef.jpg"]
    ∧ (∃ e : AppError,
        (upload_images_to_spaces c6Guess c6Gen c6PutOk c6Settings
            [c6GoodFile, c6BadFile]).2 = .error e ∧ e.status_code = 400)
    ∧ (["posts_images/0123456789abcdef0123456789abcdef.jpg"] : List String) ≠ [] := by
  exact ⟨rfl, ⟨⟨"Image file must have a filename", 400⟩, rfl, rfl⟩, by decide⟩

/-- Witness for C6 (amended): the theorem applied to the concrete batch
of one valid then one invalid file. -/
theorem c6_upload_fails_on_first_invalid_witness :
    ∃ e : AppError,
      upload_images_to_spaces c6Guess c6Gen c6PutOk c6Settings
          [c6GoodFile, c6BadFile]
        = (keysFor c6Settings c6Gen 0 [c6GoodFile], .error e)
      ∧ e.status_code = 400 :=
  c6_upload_fails_on_first_invalid c6Guess c6Gen c6PutOk c6Settings
    [c6GoodFile] c6BadFile [] (by decide) (by decide) (fun _ => rfl)

/-! ### CDN URL shape (C10) -/

/-- Lower-case hexadecimal character. -/
def isHexChar (c : Char) : Bool := c.isDigit || ('a' ≤ c && c ≤ 'f')

/-- A 32-character lower-case hex string (`uuid4().hex`). -/
def isHex32 (s : String) : Bool := decide (s.length = 32) && s.data.all isHexChar

/-- The URL shape the claim describes: the CDN endpoint, the literal
segment "/projectrakawarananew/", then the key, which is the upload path
plus "/" (omitted when the path is empty) followed by the random name
with the original file's extension. -/
def cdnUrlSpec (settings : SpacesSettings) (name ext : String) : String :=
  settings.digitalocean_cdn_endpoint ++ "/projectrakawarananew/"
    ++ (if settings.digitalocean_upload_path = ""
        then name ++ ext
        else settings.digitalocean_upload_path ++ "/" ++ (name ++ ext))

lemma urlFor_shape (settings : SpacesSettings) (gen : Nat → String) (i : Nat)
    (u : UploadedFile) :
    urlFor settings gen i u
      = cdnUrlSpec settings (gen i) (splitextExt (u.filename.getD "")) := by
  by_cases h : settings.digitalocean_upload_path = "" <;>
    simp [urlFor, keyFor, cdnUrlSpec, h]

lemma uploadLoop_ok_urls (guessType : String → Option String) (gen : Nat → String)
    (putOk : String → Bool) (settings : SpacesSettings) :
    ∀ (files : List UploadedFile) (i : Nat) (written urls w us : List String),
      uploadLoop guessType gen putOk settings i files written urls = (w, .ok us) →
      us = urls ++ urlsFor settings gen i files := by
  intro files
  induction files with
  | nil =>
    intro i written urls w us h
    simp only [uploadLoop, Prod.mk.injEq, Except.ok.injEq] at h
    simp [urlsFor, ← h.2]
  | cons u rest ih =>
    intro i written urls w us h
    simp only [uploadLoop] at h
    by_cases hf : pyFalsyStr u.filename = true
    · rw [if_pos hf] at h
      simp at h
    · rw [if_neg hf] at h
      rcases hc : effectiveContentType guessType u with _ | t <;> simp only [hc] at h
      · simp at h
      · by_cases h3 : t = "" ∨ ¬ pyStartsWith t "image/" = true
        · rw [if_pos h3] at h
          simp at h
        · rw [if_neg h3] at h
          by_cases h4 : u.content.isEmpty = true
          · rw [if_pos h4] at h
            simp at h
          · rw [if_neg h4] at h
            by_cases h5 : u.content.length
                > settings.digitalocean_max_file_size_mb * 1024 * 1024
            · rw [if_pos h5] at h
              simp at h
            · rw [if_neg h5] at h
              by_cases h6 : putOk (keyFor settings gen i u) = true
              · rw [if_pos h6] at h
                rw [ih (i + 1) (written ++ [keyFor settings gen i u])
                  (urls ++ [urlFor settings gen i u]) w us h]
                simp [urlsFor, List.append_assoc]
              · rw [if_neg h6] at h
                simp at h

lemma urlsFor_length (settings : SpacesSettings) (gen : Nat → String) :
    ∀ (files : List UploadedFile) (i : Nat),
      (urlsFor settings gen i files).length = files.length := by
  intro files
  induction files with
  | nil => intro i; rfl
  | cons u rest ih => intro i; simp [urlsFor, ih]

lemma urlsFor_get (settings : SpacesSettings) (gen : Nat → String) :
    ∀ (files : List UploadedFile) (i j : Nat) (hj : j < files.length)
      (hu : j < (urlsFor settings gen i files).length),
      (urlsFor settings gen i files).get ⟨j, hu⟩
        = urlFor settings gen (i + j) (files.get ⟨j, hj⟩) := by
  intro files
  induction files with
  | nil =>
    intro i j hj hu
    exact absurd hj (by simp)
  | cons u rest ih =>
    intro i j hj hu
    cases j with
    | zero => simp [urlsFor]
    | succ j =>
      have hj' : j < rest.length := by simpa using hj
      have hu' : j < (urlsFor settings gen (i + 1) rest).length := by
        simpa [urlsFor] using hu
      have harith : i + 1 + j = i + (j + 1) := by omega
      simp only [urlsFor, List.get_cons_succ]
      rw [ih (i + 1) j hj' hu', harith]

/-- C10: every CDN URL returned by a successful upload is exactly the
CDN endpoint, the literal "/projectrakawarananew/" segment, and the key
made of the optional upload path plus a 32-hex-character random name
preserving the original extension. -/
theorem c10_cdn_url_shape (guessType : String → Option String)
    (gen : Nat → String) (putOk : String → Bool) (settings : SpacesSettings)
    (files : List UploadedFile) (written urls : List String)
    (hhex : ∀ i, isHex32 (gen i) = true)
    (hok : upload_images_to_spaces guessType gen putOk settings files
        = (written, .ok urls)) :
    urls.length = files.length
    ∧ ∀ j (hj : j < files.length) (hu : j < urls.length),
        urls.get ⟨j, hu⟩
          = cdnUrlSpec settings (gen j)
              (splitextExt ((files.get ⟨j, hj⟩).filename.getD ""))
        ∧ isHex32 (gen j) = true := by
  have hus : urls = urlsFor settings gen 0 files := by
    rw [upload_images_to_spaces] at hok
    by_cases hf : files.isEmpty
    · rw [if_pos hf] at hok
      simp at hok
    · rw [if_neg hf] at hok
      simpa using uploadLoop_ok_urls guessType gen putOk settings files 0 [] []
        written urls hok
  subst hus
  refine ⟨urlsFor_length settings gen files 0, ?_⟩
  intro j hj hu
  rw [urlsFor_get settings gen files 0 j hj hu, urlFor_shape]
  rw [Nat.zero_add]
  exact ⟨rfl, hhex j⟩

/-- The single key and URL of the concrete one-file upload. -/
def c10Key : String := "posts_images/0123456789abcdef0123456789abcdef.jpg"

/-- The CDN URL of the concrete one-file upload. -/
def c10Url : String :=
  "https://cdn.example.com/projectrakawarananew/posts_images/0123456789abcdef0123456789abcdef.jpg"

/-- Witness for C10: the theorem applied to a concrete successful
one-file upload. -/
theorem c10_cdn_url_shape_witness :
    ([c10Url] : List String).length = ([c6GoodFile] : List UploadedFile).length
    ∧ ∀ j (hj : j < ([c6GoodFile] : List UploadedFile).length)
        (hu : j < ([c10Url] : List String).length),
        ([c10Url] : List String).get ⟨j, hu⟩
          = cdnUrlSpec c6Settings (c6Gen j)
              (splitextExt ((([c6GoodFile] : List UploadedFile).get
                ⟨j, hj⟩).filename.getD ""))
        ∧ isHex32 (c6Gen j) = true :=
  c10_cdn_url_shape c6Guess c6Gen c6PutOk c6Settings [c6GoodFile]
    [c10Key] [c10Url] (fun _ => rfl) (by rfl)

end Rakawarana
